import Mathlib

/-!
# github-org-webhook-center: relay of GitHub push webhooks to a RabbitMQ exchange

A shallow embedding of `main.go` and `pushpayload.go`.

* Go `string` is `String`, `[]byte` is `Bytes`, `error` is `Option Error`
  (`none` is Go's `nil`), a panic is an explicit result.
* The libraries the program calls (`os.Getenv`, `github.ValidatePayload`,
  `json.Unmarshal`, the AMQP client and the broker behind it) are the fields of
  `Env`; the program text is translated over an arbitrary `Env`.
* Every effect of the program is appended, in program order, to the trace of
  the `World` that is passed through the functions.
* The unbounded `for` loop of `handleOnGitHubPush` runs on fuel, one unit per
  iteration.
* `shutdownCh` is unbuffered and `main` receives from it once: a send completes
  while nothing has been delivered on the channel yet, and blocks for ever
  afterwards.
-/

namespace WebhookCenter

/-- Go `[]byte`. -/
abbrev Bytes := List UInt8

/-- Go `error` values, by their message. -/
abbrev Error := String

/-- Go conversion `[]byte(s)`. -/
def bytesOf (s : String) : Bytes := s.data.flatMap String.utf8EncodeChar

/-- Go `len(s)` of a string: its length in bytes. -/
def len (s : String) : Nat := s.utf8ByteSize

/-- Go `interface{}` as filled in by `encoding/json`. -/
inductive JsonAny where
  | null : JsonAny
  | bool (b : Bool) : JsonAny
  | number (mantissa : Int) (exponent : Int) : JsonAny
  | string (s : String) : JsonAny
  | array (xs : List JsonAny) : JsonAny
  | object (kvs : List (String × JsonAny)) : JsonAny

/-- Go `time.Time`; the zero value is the zero instant. -/
structure Time where
  sec : Int := 0
  nsec : Nat := 0

/-! ## pushpayload.go

Every field of the Go struct, with Go's zero value as the default, so that
`{}` is the value of `var githubPush GitHubPushPayload`. The anonymous nested
structs are named by their path; the field `Type` is spelt `Type_`. -/

structure GitHubPushPayloadRepositoryOwner where
  Name : String := ""
  Email : String := ""
  Login : String := ""
  Id : Int := 0
  NodeId : String := ""
  AvatarUrl : String := ""
  GravatarId : String := ""
  Url : String := ""
  HtmlUrl : String := ""
  FollowersUrl : String := ""
  FollowingUrl : String := ""
  GistsUrl : String := ""
  StarredUrl : String := ""
  SubscriptionsUrl : String := ""
  OrganizationsUrl : String := ""
  ReposUrl : String := ""
  EventsUrl : String := ""
  ReceivedEventsUrl : String := ""
  Type_ : String := ""
  SiteAdmin : Bool := false

structure GitHubPushPayloadRepositoryCustomProperties where
  mk ::

structure GitHubPushPayloadRepository where
  Id : Int := 0
  NodeId : String := ""
  Name : String := ""
  FullName : String := ""
  Private : Bool := false
  Owner : GitHubPushPayloadRepositoryOwner := {}
  HtmlUrl : String := ""
  Description : JsonAny := JsonAny.null
  Fork : Bool := false
  Url : String := ""
  ForksUrl : String := ""
  KeysUrl : String := ""
  CollaboratorsUrl : String := ""
  TeamsUrl : String := ""
  HooksUrl : String := ""
  IssueEventsUrl : String := ""
  EventsUrl : String := ""
  AssigneesUrl : String := ""
  BranchesUrl : String := ""
  TagsUrl : String := ""
  BlobsUrl : String := ""
  GitTagsUrl : String := ""
  GitRefsUrl : String := ""
  TreesUrl : String := ""
  StatusesUrl : String := ""
  LanguagesUrl : String := ""
  StargazersUrl : String := ""
  ContributorsUrl : String := ""
  SubscribersUrl : String := ""
  SubscriptionUrl : String := ""
  CommitsUrl : String := ""
  GitCommitsUrl : String := ""
  CommentsUrl : String := ""
  IssueCommentUrl : String := ""
  ContentsUrl : String := ""
  CompareUrl : String := ""
  MergesUrl : String := ""
  ArchiveUrl : String := ""
  DownloadsUrl : String := ""
  IssuesUrl : String := ""
  PullsUrl : String := ""
  MilestonesUrl : String := ""
  NotificationsUrl : String := ""
  LabelsUrl : String := ""
  ReleasesUrl : String := ""
  DeploymentsUrl : String := ""
  CreatedAt : Int := 0
  UpdatedAt : Time := {}
  PushedAt : Int := 0
  GitUrl : String := ""
  SshUrl : String := ""
  CloneUrl : String := ""
  SvnUrl : String := ""
  Homepage : JsonAny := JsonAny.null
  Size : Int := 0
  StargazersCount : Int := 0
  WatchersCount : Int := 0
  Language : String := ""
  HasIssues : Bool := false
  HasProjects : Bool := false
  HasDownloads : Bool := false
  HasWiki : Bool := false
  HasPages : Bool := false
  HasDiscussions : Bool := false
  ForksCount : Int := 0
  MirrorUrl : JsonAny := JsonAny.null
  Archived : Bool := false
  Disabled : Bool := false
  OpenIssuesCount : Int := 0
  License : JsonAny := JsonAny.null
  AllowForking : Bool := false
  IsTemplate : Bool := false
  WebCommitSignoffRequired : Bool := false
  Topics : List JsonAny := []
  Visibility : String := ""
  Forks : Int := 0
  OpenIssues : Int := 0
  Watchers : Int := 0
  DefaultBranch : String := ""
  Stargazers : Int := 0
  MasterBranch : String := ""
  Organization : String := ""
  CustomProperties : GitHubPushPayloadRepositoryCustomProperties := {}

structure GitHubPushPayloadPusher where
  Name : String := ""
  Email : String := ""

structure GitHubPushPayloadOrganization where
  Login : String := ""
  Id : Int := 0
  NodeId : String := ""
  Url : String := ""
  ReposUrl : String := ""
  EventsUrl : String := ""
  HooksUrl : String := ""
  IssuesUrl : String := ""
  MembersUrl : String := ""
  PublicMembersUrl : String := ""
  AvatarUrl : String := ""
  Description : String := ""

structure GitHubPushPayloadSender where
  Login : String := ""
  Id : Int := 0
  NodeId : String := ""
  AvatarUrl : String := ""
  GravatarId : String := ""
  Url : String := ""
  HtmlUrl : String := ""
  FollowersUrl : String := ""
  FollowingUrl : String := ""
  GistsUrl : String := ""
  StarredUrl : String := ""
  SubscriptionsUrl : String := ""
  OrganizationsUrl : String := ""
  ReposUrl : String := ""
  EventsUrl : String := ""
  ReceivedEventsUrl : String := ""
  Type_ : String := ""
  SiteAdmin : Bool := false

structure GitHubPushPayloadCommitsAuthor where
  Name : String := ""
  Email : String := ""
  Username : String := ""

structure GitHubPushPayloadCommitsCommitter where
  Name : String := ""
  Email : String := ""
  Username : String := ""

structure GitHubPushPayloadCommits where
  Id : String := ""
  TreeId : String := ""
  Distinct : Bool := false
  Message : String := ""
  Timestamp : Time := {}
  Url : String := ""
  Author : GitHubPushPayloadCommitsAuthor := {}
  Committer : GitHubPushPayloadCommitsCommitter := {}
  Added : List JsonAny := []
  Removed : List JsonAny := []
  Modified : List String := []

structure GitHubPushPayloadHeadCommitAuthor where
  Name : String := ""
  Email : String := ""
  Username : String := ""

structure GitHubPushPayloadHeadCommitCommitter where
  Name : String := ""
  Email : String := ""
  Username : String := ""

structure GitHubPushPayloadHeadCommit where
  Id : String := ""
  TreeId : String := ""
  Distinct : Bool := false
  Message : String := ""
  Timestamp : Time := {}
  Url : String := ""
  Author : GitHubPushPayloadHeadCommitAuthor := {}
  Committer : GitHubPushPayloadHeadCommitCommitter := {}
  Added : List JsonAny := []
  Removed : List JsonAny := []
  Modified : List String := []

structure GitHubPushPayload where
  Ref : String := ""
  Before : String := ""
  After : String := ""
  Repository : GitHubPushPayloadRepository := {}
  Pusher : GitHubPushPayloadPusher := {}
  Organization : GitHubPushPayloadOrganization := {}
  Sender : GitHubPushPayloadSender := {}
  Created : Bool := false
  Deleted : Bool := false
  Forced : Bool := false
  BaseRef : JsonAny := JsonAny.null
  Compare : String := ""
  Commits : List GitHubPushPayloadCommits := []
  HeadCommit : GitHubPushPayloadHeadCommit := {}

/-! ## The libraries and the world outside the program -/

/-- Go `*http.Request`, as far as `github.ValidatePayload` reads it. -/
structure Request where
  method : String := "POST"
  path : String := "/onGitHubPush"
  header : List (String × String) := []
  body : Bytes := []

/-- What the broker answers during one connection: the error, if any, of each
call the program makes on that connection and its channel. The expiry of the
context passed to `PublishWithContext` is the error `deadlineExceeded`. -/
structure BrokerReply where
  dial : Option Error := none
  channel : Option Error := none
  confirm : Option Error := none
  exchangeDeclare : Option Error := none
  publish : Option Error := none

/-- The error of a context whose deadline has passed. -/
def deadlineExceeded : Error := "context deadline exceeded"

/-- Everything the program reads from outside itself.
`broker n` is the behaviour of the broker during the `n`-th call of
`amqp.Dial` made by the process (counted from 0). -/
structure Env where
  getenv : String → String
  validatePayload : Request → Bytes → Except Error Bytes
  unmarshal : Bytes → Except Error GitHubPushPayload
  broker : Nat → BrokerReply

/-- Go `amqp.Publishing`, the fields the program sets. -/
structure Publishing where
  ContentType : String := ""
  Body : Bytes := []
deriving DecidableEq

/-- The arguments of one call of `(*amqp.Channel).PublishWithContext`;
`timeout` is the timeout of its context, in seconds. -/
structure PublishCall where
  ch : Nat
  timeout : Nat
  exchange : String
  key : String
  mandatory : Bool
  immediate : Bool
  msg : Publishing
deriving DecidableEq

/-- One effect of the program on the outside world. `connClose` and
`chanClose` are the calls `(*amqp.Connection).Close` and
`(*amqp.Channel).Close`. `shutdownSend` is a send on `shutdownCh` that
completes: the message is handed to the receive of `main`. `shutdownParked`
is a send on `shutdownCh` that finds no receive and stays blocked. -/
inductive Event where
  | log (msg : String) : Event
  | logBytes (msg : Bytes) : Event
  | dial (addr : String) (conn : Nat) (err : Option Error) : Event
  | channel (conn : Nat) (err : Option Error) : Event
  | confirm (ch : Nat) (noWait : Bool) (err : Option Error) : Event
  | exchangeDeclare (ch : Nat) (name kind : String)
      (durable autoDelete internal noWait : Bool) (err : Option Error) : Event
  | publish (call : PublishCall) (err : Option Error) : Event
  | connClose (conn : Nat) : Event
  | chanClose (ch : Nat) : Event
  | write (b : Bytes) : Event
  | sleep (seconds : Nat) : Event
  | shutdownSend (msg : String) : Event
  | shutdownParked (msg : String) : Event
deriving DecidableEq

/-- The state passed through the program: how many times `amqp.Dial` has been
called, and every effect so far, oldest first. -/
structure World where
  dials : Nat := 0
  trace : List Event := []
deriving DecidableEq

/-- Append one effect to the trace. -/
def World.emit (w : World) (e : Event) : World :=
  { w with trace := w.trace ++ [e] }

/-- How a Go function call ends: it returns a value, it panics, or it never
returns because its goroutine stays blocked in a channel operation. -/
inductive Result (α : Type) where
  | ret (a : α) : Result α
  | panic (e : Error) : Result α
  | blocked : Result α
deriving DecidableEq

/-- The messages delivered on `shutdownCh`: the sends that completed. -/
def shutdownSends (t : List Event) : List String :=
  t.filterMap fun e => match e with
    | .shutdownSend m => some m
    | _ => none

/-- The messages of the sends on `shutdownCh` that stay blocked. -/
def parkedSends (t : List Event) : List String :=
  t.filterMap fun e => match e with
    | .shutdownParked m => some m
    | _ => none

/-- Whether the receive of `main` on `shutdownCh` (main.go:48-52), the only
one in the program, is still to come: nothing has been delivered yet. -/
def mainReceives (w : World) : Bool := (shutdownSends w.trace).isEmpty

/-! ## main.go -/

/-- Go `declareMqExchange`: dial, open a channel, put it in confirm mode,
declare the exchange; the first error is returned. The channel is named by
the number of its connection. -/
def declareMqExchange (env : Env) (exchangeName : String) (w : World) :
    Except Error Nat × World :=
  let conn := w.dials
  let reply := env.broker conn
  let w : World :=
    { dials := w.dials + 1,
      trace := w.trace ++ [Event.dial (env.getenv "RMQ_ADDR") conn reply.dial] }
  match reply.dial with
  | some err => (.error err, w)
  | none =>
    let w := w.emit (.channel conn reply.channel)
    match reply.channel with
    | some err => (.error err, w)
    | none =>
      let ch := conn
      let w := w.emit (.confirm ch false reply.confirm)
      match reply.confirm with
      | some err => (.error err, w)
      | none =>
        let w := w.emit
          (.exchangeDeclare ch exchangeName "direct" false false false false
            reply.exchangeDeclare)
        match reply.exchangeDeclare with
        | some err => (.error err, w)
        | none => (.ok ch, w)

/-- Go `publishToMqExchange`. The value `none` is Go's `return nil`. -/
def publishToMqExchange (env : Env) (payload : Bytes) (w : World) :
    Result (Option Error) × World :=
  let exchangeName := env.getenv "RMQ_EXCHANGE_NAME"
  match declareMqExchange env exchangeName w with
  | (.error err, w) => (.ret (some err), w)
  | (.ok ch, w) =>
    let w := w.emit
      (.log ("Payload " ++ toString payload.length ++ " bytes received from GitHub"))
    match env.unmarshal payload with
    | .error err => (.panic err, w)
    | .ok githubPush =>
      if len githubPush.Pusher.Name == 0 || len githubPush.Pusher.Email == 0
          || len githubPush.Repository.FullName == 0 then
        (.ret none, w.emit (.log "Not a push event"))
      else
        let w := w.emit
          (.log ("Pushed on repository " ++ githubPush.Repository.FullName ++ " by "
            ++ githubPush.Pusher.Name))
        let routingKey := githubPush.Repository.FullName
        let body := "push"
        let err := (env.broker ch).publish
        let w := w.emit
          (.publish
            { ch := ch, timeout := 5, exchange := exchangeName, key := routingKey,
              mandatory := false, immediate := false,
              msg := { ContentType := "text/plain", Body := bytesOf body } }
            err)
        (.ret none, w)

/-- The `for` loop of `handleOnGitHubPush`, one unit of fuel per iteration;
`none` when the fuel ends with the loop still running. -/
def retryLoop (env : Env) (payload : Bytes) : Nat → World → Option (Result Unit) × World
  | 0, w => (none, w)
  | fuel + 1, w =>
    match publishToMqExchange env payload w with
    | (.panic e, w) => (some (.panic e), w)
    | (.ret (some err), w) =>
      let w := w.emit (.log ("publishToMqExchange error: " ++ err))
      let w := w.emit (.log "Retry publishToMqExchange in 2 seconds...")
      let w := w.emit (.sleep 2)
      retryLoop env payload fuel w
    | (.ret none, w) => (some (.ret ()), w)
    | (.blocked, w) => (some .blocked, w)

/-- Go `handleOnGitHubPush`, with `fuel` iterations of its loop. The send
`shutdownCh <- "bye"` completes, and the handler returns, when the receive of
`main` is still to come; otherwise the handler stays blocked in it. -/
def handleOnGitHubPush (env : Env) (fuel : Nat) (request : Request) (w : World) :
    Option (Result Unit) × World :=
  let w := w.emit (.log "handleOnGitHubPush")
  match env.validatePayload request (bytesOf (env.getenv "GITHUB_SECRET_TOKEN")) with
  | .error err => (some (.ret ()), w.emit (.log ("ValidatePayload failed: " ++ err)))
  | .ok payload =>
    let w := w.emit (.write (bytesOf "ok"))
    match retryLoop env payload fuel w with
    | (some (.ret ()), w) =>
      if env.getenv "SHUTDOWN_ON_GITHUB_PUSH" != "1" then
        (some (.ret ()), w.emit (.log
          "Shutdown request from GitHub push validated, but SHUTDOWN_ON_GITHUB_PUSH is not 1. No shutdown."))
      else
        let w := w.emit (.logBytes payload)
        let w := w.emit (.log "Shutdown by GitHub push.")
        if mainReceives w then
          (some (.ret ()), w.emit (.shutdownSend "bye"))
        else
          (some .blocked, w.emit (.shutdownParked "bye"))
    | (stopped, w) => (stopped, w)

/-! ## What a trace shows -/

/-- The publish calls of a trace, oldest first. -/
def published (t : List Event) : List PublishCall :=
  t.filterMap fun e => match e with
    | .publish call _ => some call
    | _ => none

/-- The response bodies written. -/
def writes (t : List Event) : List Bytes :=
  t.filterMap fun e => match e with
    | .write b => some b
    | _ => none

/-- The waits of the retry loop, in seconds. -/
def sleeps (t : List Event) : List Nat :=
  t.filterMap fun e => match e with
    | .sleep s => some s
    | _ => none

/-- The connections on which `amqp.Dial` was called, successful or not. -/
def dialed (t : List Event) : List Nat :=
  t.filterMap fun e => match e with
    | .dial _ conn _ => some conn
    | _ => none

/-- The connections open after a trace that started with `conns` open:
a successful dial opens one, `connClose` closes one. -/
def openConnsFrom (conns : List Nat) (t : List Event) : List Nat :=
  t.foldl (fun acc e => match e with
    | .dial _ conn none => acc ++ [conn]
    | .connClose conn => acc.filter (fun c => c != conn)
    | _ => acc) conns

/-- The connections open after a trace. -/
def openConns (t : List Event) : List Nat := openConnsFrom [] t

/-- The calls of `Close` on a connection or a channel in a trace. -/
def closes (t : List Event) : List Event :=
  t.filter fun e => match e with
    | .connClose _ => true
    | .chanClose _ => true
    | _ => false

/-- Whether `declareMqExchange` succeeds when it is the `n`-th dial of the
process: the result of running it there. -/
def declareSucceeds (env : Env) (n : Nat) : Bool :=
  match (declareMqExchange env (env.getenv "RMQ_EXCHANGE_NAME") { dials := n }).1 with
  | .ok _ => true
  | .error _ => false

/-- Go's test `len(a) == 0 || len(b) == 0 || len(c) == 0` fails: the payload
is a valid push. -/
def validPush (p : GitHubPushPayload) : Prop :=
  p.Pusher.Name ≠ "" ∧ p.Pusher.Email ≠ "" ∧ p.Repository.FullName ≠ ""

/-- Whether the `n`-th dial of the process succeeds. -/
def dialSucceeds (env : Env) (n : Nat) : Bool := (env.broker n).dial.isNone

instance (p : GitHubPushPayload) : Decidable (validPush p) := by
  unfold validPush
  infer_instance

/-! ## Concrete scenarios -/

/-- The body of the scenario request:
`{"pusher":{"name":"alice","email":"a@x.com"},"repository":{"full_name":"org/repo"}}`. -/
def alicePayload : Bytes :=
  bytesOf "\x7b\"pusher\":\x7b\"name\":\"alice\",\"email\":\"a@x.com\"\x7d,\"repository\":\x7b\"full_name\":\"org/repo\"\x7d\x7d"

/-- What `json.Unmarshal` makes of `alicePayload`. -/
def alice : GitHubPushPayload :=
  { Pusher := { Name := "alice", Email := "a@x.com" },
    Repository := { FullName := "org/repo" } }

/-- The body `{}`, which deserializes to the zero value. -/
def emptyObject : Bytes := bytesOf "\x7b\x7d"

/-- The body `{"pusher":42}`: a field of the wrong type. -/
def wrongTypeBody : Bytes := bytesOf "\x7b\"pusher\":42\x7d"

/-- A request that carries `body` and a signature header the scenario
validator accepts. -/
def signed (body : Bytes) : Request :=
  { header := [("X-Hub-Signature-256", "sha256=good")], body := body }

/-- A request that carries `body` and no signature header. -/
def unsigned (body : Bytes) : Request := { body := body }

/-- An environment for the scenarios: the given shutdown flag and broker, the
exchange `github`, a validator that accepts exactly the requests built by
`signed`, and a decoder that knows `alicePayload` and `emptyObject` and
rejects every other body. -/
def scenarioEnv (flag : String) (broker : Nat → BrokerReply) : Env :=
  { getenv := fun k =>
      if k = "RMQ_EXCHANGE_NAME" then "github"
      else if k = "RMQ_ADDR" then "amqp://localhost:5672"
      else if k = "GITHUB_SECRET_TOKEN" then "secret"
      else if k = "SHUTDOWN_ON_GITHUB_PUSH" then flag
      else "",
    validatePayload := fun r _ =>
      if r.header = [("X-Hub-Signature-256", "sha256=good")] then .ok r.body
      else .error "missing signature",
    unmarshal := fun b =>
      if b = alicePayload then .ok alice
      else if b = emptyObject then .ok {}
      else .error "json: cannot unmarshal",
    broker := broker }

/-- A broker that accepts everything. -/
def brokerUp : Nat → BrokerReply := fun _ => {}

/-- A broker that refuses every connection. -/
def brokerDown : Nat → BrokerReply := fun _ => { dial := some "connection refused" }

/-- A broker that refuses the first `n` connections and accepts everything
afterwards. -/
def brokerUpAfter (n : Nat) : Nat → BrokerReply :=
  fun i => if i < n then { dial := some "connection refused" } else {}

/-- A broker on which every publish call runs into its deadline. -/
def brokerPublishTimeout : Nat → BrokerReply := fun _ => { publish := some deadlineExceeded }

/-! ## Lemmas -/

theorem utf8Len_eq_zero (cs : List Char) : String.utf8ByteSize.go cs = 0 ↔ cs = [] := by
  cases cs with
  | nil => simp [String.utf8ByteSize.go]
  | cons c cs =>
    have := Char.utf8Size_pos c
    simp only [String.utf8ByteSize.go, reduceCtorEq, iff_false]
    omega

theorem len_eq_zero (s : String) : len s = 0 ↔ s = "" := by
  rcases s with ⟨cs⟩
  show String.utf8ByteSize.go cs = 0 ↔ _
  rw [utf8Len_eq_zero]
  constructor
  · intro h; subst h; rfl
  · intro h; exact congrArg String.data h

theorem not_push_iff (p : GitHubPushPayload) :
    (len p.Pusher.Name == 0 || len p.Pusher.Email == 0 || len p.Repository.FullName == 0) = true
      ↔ ¬ validPush p := by
  simp only [Bool.or_eq_true, beq_iff_eq, len_eq_zero, validPush]
  tauto

@[simp] theorem published_append (a b : List Event) :
    published (a ++ b) = published a ++ published b := by simp [published]
@[simp] theorem writes_append (a b : List Event) :
    writes (a ++ b) = writes a ++ writes b := by simp [writes]
@[simp] theorem sleeps_append (a b : List Event) :
    sleeps (a ++ b) = sleeps a ++ sleeps b := by simp [sleeps]
@[simp] theorem shutdownSends_append (a b : List Event) :
    shutdownSends (a ++ b) = shutdownSends a ++ shutdownSends b := by simp [shutdownSends]
@[simp] theorem parkedSends_append (a b : List Event) :
    parkedSends (a ++ b) = parkedSends a ++ parkedSends b := by simp [parkedSends]
@[simp] theorem dialed_append (a b : List Event) :
    dialed (a ++ b) = dialed a ++ dialed b := by simp [dialed]
@[simp] theorem closes_append (a b : List Event) :
    closes (a ++ b) = closes a ++ closes b := by simp [closes]
@[simp] theorem openConnsFrom_append (c : List Nat) (a b : List Event) :
    openConnsFrom c (a ++ b) = openConnsFrom (openConnsFrom c a) b := by
  simp [openConnsFrom]

/-- The outcome of `declareMqExchange` depends on the world only through the
number of dials. -/
theorem declareMqExchange_fst (env : Env) (x : String) (w : World) :
    (declareMqExchange env x w).1 = (declareMqExchange env x { dials := w.dials }).1 := by
  unfold declareMqExchange
  simp only
  repeat' split
  all_goals rfl

theorem declareSucceeds_iff (env : Env) (w : World) :
    declareSucceeds env w.dials = true ↔
      (declareMqExchange env (env.getenv "RMQ_EXCHANGE_NAME") w).1 = .ok w.dials := by
  rw [declareMqExchange_fst]
  unfold declareSucceeds declareMqExchange
  simp only
  repeat' split
  all_goals simp_all

theorem declareSucceeds_false_iff (env : Env) (w : World) :
    declareSucceeds env w.dials = false ↔
      ∃ err, (declareMqExchange env (env.getenv "RMQ_EXCHANGE_NAME") w).1 = .error err := by
  rw [declareMqExchange_fst]
  unfold declareSucceeds declareMqExchange
  simp only
  repeat' split
  all_goals simp_all

/-- What `declareMqExchange` adds to each observation of the trace. -/
theorem declareMqExchange_obs (env : Env) (x : String) (w : World) :
    (declareMqExchange env x w).2.dials = w.dials + 1
    ∧ published (declareMqExchange env x w).2.trace = published w.trace
    ∧ writes (declareMqExchange env x w).2.trace = writes w.trace
    ∧ sleeps (declareMqExchange env x w).2.trace = sleeps w.trace
    ∧ shutdownSends (declareMqExchange env x w).2.trace = shutdownSends w.trace
    ∧ closes (declareMqExchange env x w).2.trace = closes w.trace
    ∧ dialed (declareMqExchange env x w).2.trace = dialed w.trace ++ [w.dials]
    ∧ ∀ c, openConnsFrom c (declareMqExchange env x w).2.trace
        = openConnsFrom c w.trace
            ++ (if (env.broker w.dials).dial = none then [w.dials] else []) := by
  unfold declareMqExchange
  simp only
  repeat' split
  all_goals
    simp_all [World.emit, published, writes, sleeps, shutdownSends, closes, dialed,
      openConnsFrom]

/-- What one call of `publishToMqExchange` adds to each observation of the
trace, whatever the broker and the payload: one dial, at most one publish call
(and then it returns `nil`), nothing else. -/
theorem publishToMqExchange_obs (env : Env) (payload : Bytes) (w : World) :
    (publishToMqExchange env payload w).2.dials = w.dials + 1
    ∧ writes (publishToMqExchange env payload w).2.trace = writes w.trace
    ∧ sleeps (publishToMqExchange env payload w).2.trace = sleeps w.trace
    ∧ shutdownSends (publishToMqExchange env payload w).2.trace = shutdownSends w.trace
    ∧ closes (publishToMqExchange env payload w).2.trace = closes w.trace
    ∧ dialed (publishToMqExchange env payload w).2.trace = dialed w.trace ++ [w.dials]
    ∧ (∀ c, openConnsFrom c (publishToMqExchange env payload w).2.trace
        = openConnsFrom c w.trace
            ++ (if (env.broker w.dials).dial = none then [w.dials] else []))
    ∧ (published (publishToMqExchange env payload w).2.trace = published w.trace
        ∨ ((publishToMqExchange env payload w).1 = .ret none
            ∧ ∃ call, published (publishToMqExchange env payload w).2.trace
                = published w.trace ++ [call])) := by
  have obs := declareMqExchange_obs env (env.getenv "RMQ_EXCHANGE_NAME") w
  unfold publishToMqExchange
  simp only
  rcases hd : declareMqExchange env (env.getenv "RMQ_EXCHANGE_NAME") w with ⟨r, w1⟩
  rw [hd] at obs
  obtain ⟨o1, o2, o3, o4, o5, o6, o7, o8⟩ := obs
  simp only at o1 o2 o3 o4 o5 o6 o7 o8
  cases r with
  | error err => simp [o1, o2, o3, o4, o5, o6, o7, o8]
  | ok ch =>
    simp only
    split
    · simp only [World.emit, published_append, writes_append, sleeps_append,
        shutdownSends_append, closes_append, dialed_append, openConnsFrom_append,
        o1, o2, o3, o4, o5, o6, o7, o8]
      simp [published, writes, sleeps, shutdownSends, closes, dialed, openConnsFrom]
    · split
      · simp only [World.emit, published_append, writes_append, sleeps_append,
          shutdownSends_append, closes_append, dialed_append, openConnsFrom_append,
          o1, o2, o3, o4, o5, o6, o7, o8]
        simp [published, writes, sleeps, shutdownSends, closes, dialed, openConnsFrom]
      · simp only [World.emit, published_append, writes_append, sleeps_append,
          shutdownSends_append, closes_append, dialed_append, openConnsFrom_append,
          o1, o2, o3, o4, o5, o6, o7, o8]
        simp [published, writes, sleeps, shutdownSends, closes, dialed, openConnsFrom]

/-- While `declareMqExchange` fails, `publishToMqExchange` returns its error
and publishes nothing. -/
theorem publishToMqExchange_of_declare_fails (env : Env) (payload : Bytes) (w : World)
    (h : declareSucceeds env w.dials = false) :
    (∃ err, (publishToMqExchange env payload w).1 = .ret (some err))
    ∧ published (publishToMqExchange env payload w).2.trace = published w.trace := by
  have obs := declareMqExchange_obs env (env.getenv "RMQ_EXCHANGE_NAME") w
  obtain ⟨err, he⟩ := (declareSucceeds_false_iff env w).1 h
  unfold publishToMqExchange
  simp only
  rcases hd : declareMqExchange env (env.getenv "RMQ_EXCHANGE_NAME") w with ⟨r, w1⟩
  rw [hd] at obs he
  simp only at he
  subst he
  simp [obs.2.1]

/-- Once `declareMqExchange` succeeds, `publishToMqExchange` goes on to
deserialize the payload: it panics on a payload that does not deserialize,
returns `nil` without publishing on one that is not a valid push, and issues
one publish call and returns `nil`, whatever the broker answers to the call,
on a valid push. -/
theorem publishToMqExchange_of_declare_succeeds (env : Env) (payload : Bytes) (w : World)
    (h : declareSucceeds env w.dials = true) :
    (∀ err, env.unmarshal payload = .error err →
        (publishToMqExchange env payload w).1 = .panic err
        ∧ published (publishToMqExchange env payload w).2.trace = published w.trace)
    ∧ (∀ p, env.unmarshal payload = .ok p → ¬ validPush p →
        (publishToMqExchange env payload w).1 = .ret none
        ∧ published (publishToMqExchange env payload w).2.trace = published w.trace)
    ∧ (∀ p, env.unmarshal payload = .ok p → validPush p →
        (publishToMqExchange env payload w).1 = .ret none
        ∧ published (publishToMqExchange env payload w).2.trace = published w.trace ++
            [{ ch := w.dials, timeout := 5, exchange := env.getenv "RMQ_EXCHANGE_NAME",
               key := p.Repository.FullName, mandatory := false, immediate := false,
               msg := { ContentType := "text/plain", Body := bytesOf "push" } }]) := by
  have obs := declareMqExchange_obs env (env.getenv "RMQ_EXCHANGE_NAME") w
  have he := (declareSucceeds_iff env w).1 h
  unfold publishToMqExchange
  simp only
  rcases hd : declareMqExchange env (env.getenv "RMQ_EXCHANGE_NAME") w with ⟨r, w1⟩
  rw [hd] at obs he
  simp only at he
  subst he
  have o2 : published w1.trace = published w.trace := obs.2.1
  refine ⟨?_, ?_, ?_⟩
  · intro err hu
    simp only [hu, World.emit, published_append, o2]
    simp [published]
  · intro p hu hv
    have := (not_push_iff p).2 hv
    simp only [hu, this, World.emit, published_append, o2, ↓reduceIte]
    simp [published]
  · intro p hu hv
    have : ¬ ((len p.Pusher.Name == 0 || len p.Pusher.Email == 0
        || len p.Repository.FullName == 0) = true) := fun hc => (not_push_iff p).1 hc hv
    simp only [hu]
    rw [if_neg this]
    simp only [World.emit, published_append, o2]
    simp [published]

@[simp] theorem emit_dials (w : World) (e : Event) : (w.emit e).dials = w.dials := rfl

@[simp] theorem emit_trace (w : World) (e : Event) : (w.emit e).trace = w.trace ++ [e] := rfl

/-- The retry loop leaves as soon as `declareMqExchange` succeeds, for every
payload that deserializes: after `n` failed attempts and one that succeeds it
has dialled `n + 1` times, slept `n` times for 2 seconds, and published once
if the payload is a valid push and not at all if it is not. -/
theorem retryLoop_exit (env : Env) (payload : Bytes) (p : GitHubPushPayload)
    (hu : env.unmarshal payload = .ok p) (k : Nat) :
    ∀ (n : Nat) (w : World),
      (∀ i, i < n → declareSucceeds env (w.dials + i) = false) →
      declareSucceeds env (w.dials + n) = true →
      (retryLoop env payload (n + 1 + k) w).1 = some (.ret ())
      ∧ (retryLoop env payload (n + 1 + k) w).2.dials = w.dials + n + 1
      ∧ sleeps (retryLoop env payload (n + 1 + k) w).2.trace
          = sleeps w.trace ++ List.replicate n 2
      ∧ dialed (retryLoop env payload (n + 1 + k) w).2.trace
          = dialed w.trace ++ List.range' w.dials (n + 1)
      ∧ (validPush p →
          published (retryLoop env payload (n + 1 + k) w).2.trace = published w.trace ++
            [{ ch := w.dials + n, timeout := 5, exchange := env.getenv "RMQ_EXCHANGE_NAME",
               key := p.Repository.FullName, mandatory := false, immediate := false,
               msg := { ContentType := "text/plain", Body := bytesOf "push" } }])
      ∧ (¬ validPush p →
          published (retryLoop env payload (n + 1 + k) w).2.trace = published w.trace) := by
  intro n
  induction n with
  | zero =>
    intro w _ hs
    have hs0 : declareSucceeds env w.dials = true := by simpa using hs
    obtain ⟨-, hinv, hval⟩ := publishToMqExchange_of_declare_succeeds env payload w hs0
    have obs := publishToMqExchange_obs env payload w
    have hret : (publishToMqExchange env payload w).1 = .ret none := by
      by_cases hv : validPush p
      · exact (hval p hu hv).1
      · exact (hinv p hu hv).1
    have hinv2 := hinv p hu
    have hval2 := hval p hu
    rcases hp : publishToMqExchange env payload w with ⟨r, w1⟩
    rw [hp] at obs hret hinv2 hval2
    simp only at hret
    subst hret
    have hloop : retryLoop env payload (0 + 1 + k) w = (some (.ret ()), w1) := by
      rw [show 0 + 1 + k = k + 1 by omega]
      simp only [retryLoop, hp]
    rw [hloop]
    refine ⟨rfl, by simpa using obs.1, by simpa using obs.2.2.1, ?_, ?_, ?_⟩
    · simpa [List.range'] using obs.2.2.2.2.2.1
    · intro hv; simpa using (hval2 hv).2
    · intro hv; simpa using (hinv2 hv).2
  | succ n ih =>
    intro w hf hs
    have hf0 : declareSucceeds env w.dials = false := by simpa using hf 0 (by omega)
    obtain ⟨⟨err, herr⟩, hpub⟩ := publishToMqExchange_of_declare_fails env payload w hf0
    have obs := publishToMqExchange_obs env payload w
    rcases hp : publishToMqExchange env payload w with ⟨r, w1⟩
    rw [hp] at obs herr hpub
    simp only at herr hpub
    subst herr
    have hd1 : w1.dials = w.dials + 1 := obs.1
    have hloop : retryLoop env payload (n + 1 + 1 + k) w
        = retryLoop env payload (n + 1 + k)
            (((w1.emit (.log ("publishToMqExchange error: " ++ err))).emit
              (.log "Retry publishToMqExchange in 2 seconds...")).emit (.sleep 2)) := by
      rw [show n + 1 + 1 + k = (n + 1 + k) + 1 by omega]
      simp only [retryLoop, hp]
    rw [hloop]
    have := ih (((w1.emit (.log ("publishToMqExchange error: " ++ err))).emit
              (.log "Retry publishToMqExchange in 2 seconds...")).emit (.sleep 2))
      (by
        intro i hi
        have := hf (i + 1) (by omega)
        simpa [hd1, Nat.add_assoc, Nat.add_comm 1 i] using this)
      (by simpa [hd1, Nat.add_assoc, Nat.add_comm 1 n] using hs)
    obtain ⟨h1, h2, h3, h4, h5, h6⟩ := this
    have o3 : sleeps w1.trace = sleeps w.trace := obs.2.2.1
    have o6 : dialed w1.trace = dialed w.trace ++ [w.dials] := obs.2.2.2.2.2.1
    refine ⟨h1, ?_, ?_, ?_, ?_, ?_⟩
    · rw [h2]; simp [hd1]; omega
    · rw [h3]
      simp only [emit_trace, sleeps_append, o3]
      simp [sleeps, List.replicate_succ]
    · rw [h4]
      simp only [emit_trace, emit_dials, dialed_append, o6, hd1]
      simp [dialed, List.range'_succ]
    · intro hv
      rw [h5 hv]
      simp only [emit_trace, emit_dials, published_append, hpub, hd1]
      simp [published, Nat.add_assoc, Nat.add_comm 1 n]
    · intro hv
      rw [h6 hv]
      simp only [emit_trace, published_append, hpub]
      simp [published]

theorem declareMqExchange_extends (env : Env) (x : String) (w : World) :
    ∃ d, (declareMqExchange env x w).2.trace = w.trace ++ d := by
  unfold declareMqExchange
  simp only
  repeat' split
  all_goals simp [World.emit]

theorem publishToMqExchange_extends (env : Env) (payload : Bytes) (w : World) :
    ∃ d, (publishToMqExchange env payload w).2.trace = w.trace ++ d := by
  obtain ⟨d, hd⟩ := declareMqExchange_extends env (env.getenv "RMQ_EXCHANGE_NAME") w
  unfold publishToMqExchange
  simp only
  rcases h : declareMqExchange env (env.getenv "RMQ_EXCHANGE_NAME") w with ⟨r, w1⟩
  rw [h] at hd
  simp only at hd
  cases r with
  | error err => exact ⟨d, hd⟩
  | ok ch =>
    simp only
    repeat' split
    all_goals simp [World.emit, hd]

theorem retryLoop_extends (env : Env) (payload : Bytes) (fuel : Nat) :
    ∀ w : World, ∃ d, (retryLoop env payload fuel w).2.trace = w.trace ++ d := by
  induction fuel with
  | zero => intro w; exact ⟨[], by simp [retryLoop]⟩
  | succ fuel ih =>
    intro w
    obtain ⟨d, hd⟩ := publishToMqExchange_extends env payload w
    rcases hp : publishToMqExchange env payload w with ⟨r, w1⟩
    rw [hp] at hd
    simp only at hd
    rcases r with (_ | err) | e | _
    · exact ⟨d, by simp only [retryLoop, hp]; exact hd⟩
    · obtain ⟨d2, hd2⟩ := ih (((w1.emit (.log ("publishToMqExchange error: " ++ err))).emit
        (.log "Retry publishToMqExchange in 2 seconds...")).emit (.sleep 2))
      refine ⟨d ++ [.log ("publishToMqExchange error: " ++ err),
        .log "Retry publishToMqExchange in 2 seconds...", .sleep 2] ++ d2, ?_⟩
      simp only [retryLoop, hp]
      rw [hd2]
      simp [hd]
    · exact ⟨d, by simp only [retryLoop, hp]; exact hd⟩
    · exact ⟨d, by simp only [retryLoop, hp]; exact hd⟩

/-- What the retry loop adds to each observation of the trace, for every
broker, payload and amount of fuel: no response body, nothing on the shutdown
channel, no `Close`; every dial that succeeds leaves its connection open; at
most one publish call, and then the loop has been left. -/
theorem retryLoop_obs (env : Env) (payload : Bytes) (fuel : Nat) :
    ∀ w : World,
      w.dials ≤ (retryLoop env payload fuel w).2.dials
      ∧ writes (retryLoop env payload fuel w).2.trace = writes w.trace
      ∧ shutdownSends (retryLoop env payload fuel w).2.trace = shutdownSends w.trace
      ∧ closes (retryLoop env payload fuel w).2.trace = closes w.trace
      ∧ (∀ c, openConnsFrom c (retryLoop env payload fuel w).2.trace
          = openConnsFrom c w.trace
              ++ (List.range' w.dials ((retryLoop env payload fuel w).2.dials - w.dials)).filter
                  (dialSucceeds env))
      ∧ (published (retryLoop env payload fuel w).2.trace = published w.trace
          ∨ ((retryLoop env payload fuel w).1 = some (.ret ())
              ∧ ∃ call, published (retryLoop env payload fuel w).2.trace
                  = published w.trace ++ [call])) := by
  induction fuel with
  | zero => intro w; simp [retryLoop]
  | succ fuel ih =>
    intro w
    obtain ⟨o1, o2, -, o4, o5, -, o7, o8⟩ := publishToMqExchange_obs env payload w
    rcases hp : publishToMqExchange env payload w with ⟨r, w1⟩
    rw [hp] at o1 o2 o4 o5 o7 o8
    simp only at o1 o2 o4 o5 o7 o8
    have hone : ∀ c, openConnsFrom c w1.trace = openConnsFrom c w.trace
        ++ (List.range' w.dials (w1.dials - w.dials)).filter (dialSucceeds env) := by
      intro c
      rw [o7 c, o1]
      by_cases hn : (env.broker w.dials).dial = none <;> simp [hn, dialSucceeds]
    rcases r with (_ | err) | e | _
    · simp only [retryLoop, hp]
      refine ⟨by omega, o2, o4, o5, hone, ?_⟩
      rcases o8 with h | ⟨-, h⟩
      · exact Or.inl h
      · exact Or.inr ⟨trivial, h⟩
    · have hnp : published w1.trace = published w.trace := by
        rcases o8 with h | ⟨h, -⟩
        · exact h
        · cases h
      obtain ⟨i1, i2, i4, i5, i7, i8⟩ :=
        ih (((w1.emit (.log ("publishToMqExchange error: " ++ err))).emit
          (.log "Retry publishToMqExchange in 2 seconds...")).emit (.sleep 2))
      simp only [retryLoop, hp]
      simp only [emit_dials, emit_trace, writes_append, shutdownSends_append, closes_append,
        published_append, openConnsFrom_append, o2, o4, o5, hnp] at i1 i2 i4 i5 i7 i8
      refine ⟨by omega, ?_, ?_, ?_, ?_, ?_⟩
      · rw [i2]; simp [writes]
      · rw [i4]; simp [shutdownSends]
      · rw [i5]; simp [closes]
      · intro c
        have h7 := i7 c
        simp only [openConnsFrom, List.foldl_cons, List.foldl_nil] at h7
        simp only [openConnsFrom] at hone ⊢
        rw [h7, hone c, o1, List.append_assoc, ← List.filter_append]
        congr 2
        simp only [Nat.add_sub_cancel_left, List.range'_one]
        rw [show (retryLoop env payload fuel
            (((w1.emit (.log ("publishToMqExchange error: " ++ err))).emit
              (.log "Retry publishToMqExchange in 2 seconds...")).emit (.sleep 2))).2.dials
              - w.dials
            = ((retryLoop env payload fuel
            (((w1.emit (.log ("publishToMqExchange error: " ++ err))).emit
              (.log "Retry publishToMqExchange in 2 seconds...")).emit (.sleep 2))).2.dials
              - (w.dials + 1)) + 1 by omega]
        rw [List.range'_succ]
        rfl
      · rcases i8 with h | ⟨h1, call, h2⟩
        · left; rw [h]; simp [published]
        · right
          refine ⟨h1, call, ?_⟩
          rw [h2]; simp [published]
    · simp only [retryLoop, hp]
      refine ⟨by omega, o2, o4, o5, hone, ?_⟩
      rcases o8 with h | ⟨h, -⟩
      · exact Or.inl h
      · cases h
    · simp only [retryLoop, hp]
      refine ⟨by omega, o2, o4, o5, hone, ?_⟩
      rcases o8 with h | ⟨h, -⟩
      · exact Or.inl h
      · cases h

theorem declareMqExchange_ok (env : Env) (w : World) (ch : Nat)
    (h : (declareMqExchange env (env.getenv "RMQ_EXCHANGE_NAME") w).1 = .ok ch) :
    declareSucceeds env w.dials = true ∧ ch = w.dials := by
  cases hs : declareSucceeds env w.dials with
  | false =>
    obtain ⟨err, he⟩ := (declareSucceeds_false_iff env w).1 hs
    rw [he] at h
    cases h
  | true =>
    have := (declareSucceeds_iff env w).1 hs
    rw [this] at h
    cases h
    exact ⟨rfl, rfl⟩

/-- A payload for which no call of `publishToMqExchange` publishes is not
published by the retry loop either, however long it runs. -/
theorem retryLoop_published_unchanged (env : Env) (payload : Bytes)
    (h : ∀ w, published (publishToMqExchange env payload w).2.trace = published w.trace)
    (fuel : Nat) :
    ∀ w, published (retryLoop env payload fuel w).2.trace = published w.trace := by
  induction fuel with
  | zero => intro w; simp [retryLoop]
  | succ fuel ih =>
    intro w
    have hw := h w
    rcases hp : publishToMqExchange env payload w with ⟨r, w1⟩
    rw [hp] at hw
    simp only at hw
    rcases r with (_ | err) | e | _
    · simp only [retryLoop, hp]; exact hw
    · simp only [retryLoop, hp]
      rw [ih]
      simp only [emit_trace, published_append, hw]
      simp [published]
    · simp only [retryLoop, hp]; exact hw
    · simp only [retryLoop, hp]; exact hw

/-- A payload that is not a valid push, or does not deserialize, is not
published by any call of `publishToMqExchange`. -/
theorem publishToMqExchange_published_unchanged (env : Env) (payload : Bytes)
    (h : ∀ p, env.unmarshal payload = .ok p → ¬ validPush p) (w : World) :
    published (publishToMqExchange env payload w).2.trace = published w.trace := by
  cases hs : declareSucceeds env w.dials with
  | false => exact (publishToMqExchange_of_declare_fails env payload w hs).2
  | true =>
    obtain ⟨hmal, hinv, -⟩ := publishToMqExchange_of_declare_succeeds env payload w hs
    rcases hu : env.unmarshal payload with err | p
    · exact (hmal err hu).2
    · exact (hinv p hu (h p hu)).2

/-- No call of `declareMqExchange` leaves a send blocked on `shutdownCh`. -/
theorem declareMqExchange_parked (env : Env) (x : String) (w : World) :
    parkedSends (declareMqExchange env x w).2.trace = parkedSends w.trace := by
  unfold declareMqExchange
  simp only
  repeat' split
  all_goals simp [World.emit, parkedSends]

/-- No call of `publishToMqExchange` leaves a send blocked on `shutdownCh`. -/
theorem publishToMqExchange_parked (env : Env) (payload : Bytes) (w : World) :
    parkedSends (publishToMqExchange env payload w).2.trace = parkedSends w.trace := by
  have hd := declareMqExchange_parked env (env.getenv "RMQ_EXCHANGE_NAME") w
  unfold publishToMqExchange
  simp only
  rcases h : declareMqExchange env (env.getenv "RMQ_EXCHANGE_NAME") w with ⟨r, w1⟩
  rw [h] at hd
  simp only at hd
  cases r with
  | error err => exact hd
  | ok ch =>
    simp only
    repeat' split
    all_goals
      simp only [World.emit, parkedSends_append, hd]
      simp [parkedSends]

/-- The retry loop leaves no send blocked on `shutdownCh`. -/
theorem retryLoop_parked (env : Env) (payload : Bytes) (fuel : Nat) :
    ∀ w : World, parkedSends (retryLoop env payload fuel w).2.trace = parkedSends w.trace := by
  induction fuel with
  | zero => intro w; simp [retryLoop]
  | succ fuel ih =>
    intro w
    have hw := publishToMqExchange_parked env payload w
    rcases hp : publishToMqExchange env payload w with ⟨r, w1⟩
    rw [hp] at hw
    simp only at hw
    rcases r with (_ | err) | e | _
    · simp only [retryLoop, hp]; exact hw
    · simp only [retryLoop, hp]
      rw [ih]
      simp only [emit_trace, parkedSends_append, hw]
      simp [parkedSends]
    · simp only [retryLoop, hp]; exact hw
    · simp only [retryLoop, hp]; exact hw

/-- While `declareMqExchange` returns an error, `publishToMqExchange` returns
that error and does nothing more, whatever the payload. -/
theorem publishToMqExchange_of_declare_error (env : Env) (payload : Bytes) (w : World)
    (err : Error)
    (h : (declareMqExchange env (env.getenv "RMQ_EXCHANGE_NAME") w).1 = .error err) :
    publishToMqExchange env payload w
      = (.ret (some err), (declareMqExchange env (env.getenv "RMQ_EXCHANGE_NAME") w).2) := by
  unfold publishToMqExchange
  simp only
  rcases hd : declareMqExchange env (env.getenv "RMQ_EXCHANGE_NAME") w with ⟨r, w1⟩
  rw [hd] at h
  simp only at h
  subst h
  rfl

/-- An iteration of the loop on which `declareMqExchange` returns an error
logs that error, waits 2 seconds and goes on to the next iteration. -/
theorem retryLoop_of_declare_error (env : Env) (payload : Bytes) (fuel : Nat) (w : World)
    (err : Error)
    (h : (declareMqExchange env (env.getenv "RMQ_EXCHANGE_NAME") w).1 = .error err) :
    retryLoop env payload (fuel + 1) w
      = retryLoop env payload fuel
          ((((declareMqExchange env (env.getenv "RMQ_EXCHANGE_NAME") w).2.emit
              (.log ("publishToMqExchange error: " ++ err))).emit
            (.log "Retry publishToMqExchange in 2 seconds...")).emit (.sleep 2)) := by
  simp only [retryLoop, publishToMqExchange_of_declare_error env payload w err h]

/-- The handler after a successful validation, in terms of its retry loop:
its result, and what it adds to the observations of the trace the loop
leaves. -/
theorem handleOnGitHubPush_obs (env : Env) (fuel : Nat) (request : Request) (w : World)
    (payload : Bytes)
    (hv : env.validatePayload request (bytesOf (env.getenv "GITHUB_SECRET_TOKEN"))
      = .ok payload) :
    (handleOnGitHubPush env fuel request w).1
        = (if (retryLoop env payload fuel
                ((w.emit (.log "handleOnGitHubPush")).emit (.write (bytesOf "ok")))).1
                  = some (.ret ()) ∧ env.getenv "SHUTDOWN_ON_GITHUB_PUSH" = "1"
                ∧ shutdownSends w.trace ≠ []
           then some .blocked
           else (retryLoop env payload fuel
                ((w.emit (.log "handleOnGitHubPush")).emit (.write (bytesOf "ok")))).1)
    ∧ (handleOnGitHubPush env fuel request w).2.dials
        = (retryLoop env payload fuel
            ((w.emit (.log "handleOnGitHubPush")).emit (.write (bytesOf "ok")))).2.dials
    ∧ (∃ tail, (handleOnGitHubPush env fuel request w).2.trace
        = (retryLoop env payload fuel
            ((w.emit (.log "handleOnGitHubPush")).emit (.write (bytesOf "ok")))).2.trace ++ tail
        ∧ published tail = [] ∧ writes tail = [] ∧ sleeps tail = [] ∧ dialed tail = []
        ∧ closes tail = [] ∧ (∀ c, openConnsFrom c tail = c)
        ∧ shutdownSends tail =
            (if (retryLoop env payload fuel
                ((w.emit (.log "handleOnGitHubPush")).emit (.write (bytesOf "ok")))).1
                  = some (.ret ()) ∧ env.getenv "SHUTDOWN_ON_GITHUB_PUSH" = "1"
                ∧ shutdownSends w.trace = []
            then ["bye"] else [])
        ∧ parkedSends tail =
            (if (retryLoop env payload fuel
                ((w.emit (.log "handleOnGitHubPush")).emit (.write (bytesOf "ok")))).1
                  = some (.ret ()) ∧ env.getenv "SHUTDOWN_ON_GITHUB_PUSH" = "1"
                ∧ shutdownSends w.trace ≠ []
            then ["bye"] else [])) := by
  obtain ⟨-, -, r3, -⟩ := retryLoop_obs env payload fuel
    ((w.emit (.log "handleOnGitHubPush")).emit (.write (bytesOf "ok")))
  have hstart : shutdownSends
      ((w.emit (.log "handleOnGitHubPush")).emit (.write (bytesOf "ok"))).trace
      = shutdownSends w.trace := by
    simp [shutdownSends]
  rw [hstart] at r3
  unfold handleOnGitHubPush
  simp only [hv]
  rcases hr : retryLoop env payload fuel
      ((w.emit (.log "handleOnGitHubPush")).emit (.write (bytesOf "ok"))) with ⟨r, w2⟩
  rw [hr] at r3
  simp only at r3
  rcases r with _ | (⟨⟨⟩⟩ | e | _)
  · refine ⟨by simp, rfl, [], ?_⟩
    simp [published, writes, sleeps, dialed, closes, openConnsFrom, shutdownSends,
      parkedSends]
  · simp only
    by_cases hflag : env.getenv "SHUTDOWN_ON_GITHUB_PUSH" = "1"
    · have hrecv : mainReceives ((w2.emit (.logBytes payload)).emit
          (.log "Shutdown by GitHub push.")) = (shutdownSends w.trace).isEmpty := by
        simp only [mainReceives, emit_trace, shutdownSends_append, r3]
        simp [shutdownSends]
      simp only [hflag, bne_self_eq_false, Bool.false_eq_true, ↓reduceIte, hrecv]
      by_cases hempty : shutdownSends w.trace = []
      · simp only [hempty, List.isEmpty_nil, ↓reduceIte]
        refine ⟨by simp, rfl, [.logBytes payload, .log "Shutdown by GitHub push.",
          .shutdownSend "bye"], ?_⟩
        simp [published, writes, sleeps, dialed, closes, openConnsFrom, shutdownSends,
          parkedSends]
      · have hne : (shutdownSends w.trace).isEmpty = false := by
          simpa using hempty
        simp only [hne, Bool.false_eq_true, ↓reduceIte]
        refine ⟨by simp [hempty], rfl, [.logBytes payload, .log "Shutdown by GitHub push.",
          .shutdownParked "bye"], ?_⟩
        simp only [hempty, ne_eq, not_false_eq_true, and_true, and_false, ↓reduceIte]
        simp [published, writes, sleeps, dialed, closes, openConnsFrom, shutdownSends,
          parkedSends]
    · have hb : (env.getenv "SHUTDOWN_ON_GITHUB_PUSH" != "1") = true := by
        simpa using hflag
      simp only [hb, ↓reduceIte]
      refine ⟨by simp [hflag], rfl, [.log
        "Shutdown request from GitHub push validated, but SHUTDOWN_ON_GITHUB_PUSH is not 1. No shutdown."],
        ?_⟩
      simp [published, writes, sleeps, dialed, closes, openConnsFrom, shutdownSends,
        parkedSends, hflag]
  · refine ⟨by simp, rfl, [], ?_⟩
    simp [published, writes, sleeps, dialed, closes, openConnsFrom, shutdownSends,
      parkedSends]
  · refine ⟨by simp, rfl, [], ?_⟩
    simp [published, writes, sleeps, dialed, closes, openConnsFrom, shutdownSends,
      parkedSends]

/-- The handler on a request whose validation fails: two log lines. -/
theorem handleOnGitHubPush_of_invalid (env : Env) (fuel : Nat) (request : Request)
    (w : World) (err : Error)
    (hv : env.validatePayload request (bytesOf (env.getenv "GITHUB_SECRET_TOKEN"))
      = .error err) :
    handleOnGitHubPush env fuel request w
      = (some (.ret ()),
          { dials := w.dials,
            trace := w.trace ++ [.log "handleOnGitHubPush",
              .log ("ValidatePayload failed: " ++ err)] }) := by
  unfold handleOnGitHubPush
  simp [hv, World.emit]

/-! ## The claims -/

/-- C1: for every payload that deserializes with non-empty `pusher.name`,
`pusher.email` and `repository.full_name`, on a broker on which
`declareMqExchange` succeeds, `publishToMqExchange` returns `nil` and issues
exactly one publish call: on the declared channel, to the exchange named by
`RMQ_EXCHANGE_NAME`, with the payload's `repository.full_name` as routing key,
the bytes of `"push"` as body and content type `"text/plain"`. -/
theorem publishToMqExchange_valid_push (env : Env) (payload : Bytes)
    (p : GitHubPushPayload) (w : World) (ch : Nat)
    (hu : env.unmarshal payload = .ok p)
    (hname : p.Pusher.Name ≠ "") (hemail : p.Pusher.Email ≠ "")
    (hrepo : p.Repository.FullName ≠ "")
    (hd : (declareMqExchange env (env.getenv "RMQ_EXCHANGE_NAME") w).1 = .ok ch) :
    (publishToMqExchange env payload w).1 = .ret none
    ∧ published (publishToMqExchange env payload w).2.trace = published w.trace ++
        [{ ch := ch, timeout := 5, exchange := env.getenv "RMQ_EXCHANGE_NAME",
           key := p.Repository.FullName, mandatory := false, immediate := false,
           msg := { ContentType := "text/plain", Body := bytesOf "push" } }] := by
  obtain ⟨hs, rfl⟩ := declareMqExchange_ok env w ch hd
  exact (publishToMqExchange_of_declare_succeeds env payload w hs).2.2 p hu
    ⟨hname, hemail, hrepo⟩

/-- C1 on the scenario payload: pusher alice / a@x.com, repository org/repo,
gives one publish call with routing key `org/repo` and body `push`. -/
theorem publishToMqExchange_valid_push_witness :
    (scenarioEnv "" brokerUp).unmarshal alicePayload = .ok alice
    ∧ (publishToMqExchange (scenarioEnv "" brokerUp) alicePayload {}).1 = .ret none
    ∧ published (publishToMqExchange (scenarioEnv "" brokerUp) alicePayload {}).2.trace =
        [{ ch := 0, timeout := 5, exchange := "github", key := "org/repo",
           mandatory := false, immediate := false,
           msg := { ContentType := "text/plain", Body := [112, 117, 115, 104] } }] :=
  ⟨rfl, publishToMqExchange_valid_push (scenarioEnv "" brokerUp) alicePayload alice {} 0
    rfl (by decide) (by decide) (by decide) rfl⟩

/-- C2 (the code departs from the claim): on a valid push whose publish call
runs into its deadline, `publishToMqExchange` returns `nil`, and
`handleOnGitHubPush` leaves its loop after this one attempt without any
backoff wait. -/
theorem publish_error_is_discarded :
    (brokerPublishTimeout 0).publish = some deadlineExceeded
    ∧ (publishToMqExchange (scenarioEnv "" brokerPublishTimeout) alicePayload {}).1
        = .ret none
    ∧ (handleOnGitHubPush (scenarioEnv "" brokerPublishTimeout) 1 (signed alicePayload) {}).1
        = some (.ret ())
    ∧ sleeps (handleOnGitHubPush (scenarioEnv "" brokerPublishTimeout) 1
        (signed alicePayload) {}).2.trace = []
    ∧ dialed (handleOnGitHubPush (scenarioEnv "" brokerPublishTimeout) 1
        (signed alicePayload) {}).2.trace = [0]
    ∧ Event.publish
        { ch := 0, timeout := 5, exchange := "github", key := "org/repo",
          mandatory := false, immediate := false,
          msg := { ContentType := "text/plain", Body := [112, 117, 115, 104] } }
        (some deadlineExceeded)
      ∈ (handleOnGitHubPush (scenarioEnv "" brokerPublishTimeout) 1
          (signed alicePayload) {}).2.trace := by
  decide

/-- C3: for every `n` and every authenticated valid push, if
`declareMqExchange` fails on the first `n` attempts of the request and
succeeds on the next, the retry loop of `handleOnGitHubPush` is left (with
any fuel of at least `n + 1` iterations) after exactly `n + 1` dials on
`n + 1` fresh connections, exactly `n` waits of 2 seconds, and exactly one
publish call, issued on the channel of the last connection. The handler then
returns, unless `SHUTDOWN_ON_GITHUB_PUSH` is `"1"` and a message has already
been delivered on the shutdown channel: then it stays blocked in its send. -/
theorem handleOnGitHubPush_retries_until_declared (env : Env) (request : Request)
    (payload : Bytes) (p : GitHubPushPayload) (n k : Nat) (w : World)
    (hv : env.validatePayload request (bytesOf (env.getenv "GITHUB_SECRET_TOKEN"))
      = .ok payload)
    (hu : env.unmarshal payload = .ok p)
    (hname : p.Pusher.Name ≠ "") (hemail : p.Pusher.Email ≠ "")
    (hrepo : p.Repository.FullName ≠ "")
    (hfail : ∀ i, i < n → declareSucceeds env (w.dials + i) = false)
    (hsucc : declareSucceeds env (w.dials + n) = true) :
    (retryLoop env payload (n + 1 + k)
        { dials := w.dials,
          trace := w.trace ++ [.log "handleOnGitHubPush", .write (bytesOf "ok")] }).1
      = some (.ret ())
    ∧ (handleOnGitHubPush env (n + 1 + k) request w).1
        = (if env.getenv "SHUTDOWN_ON_GITHUB_PUSH" = "1" ∧ shutdownSends w.trace ≠ []
           then some .blocked else some (.ret ()))
    ∧ (handleOnGitHubPush env (n + 1 + k) request w).2.dials = w.dials + n + 1
    ∧ dialed (handleOnGitHubPush env (n + 1 + k) request w).2.trace
        = dialed w.trace ++ List.range' w.dials (n + 1)
    ∧ sleeps (handleOnGitHubPush env (n + 1 + k) request w).2.trace
        = sleeps w.trace ++ List.replicate n 2
    ∧ published (handleOnGitHubPush env (n + 1 + k) request w).2.trace = published w.trace ++
        [{ ch := w.dials + n, timeout := 5, exchange := env.getenv "RMQ_EXCHANGE_NAME",
           key := p.Repository.FullName, mandatory := false, immediate := false,
           msg := { ContentType := "text/plain", Body := bytesOf "push" } }] := by
  have hstart : (w.emit (.log "handleOnGitHubPush")).emit (.write (bytesOf "ok"))
      = { dials := w.dials,
          trace := w.trace ++ [.log "handleOnGitHubPush", .write (bytesOf "ok")] } := by
    simp [World.emit]
  obtain ⟨h1, h2, tail, h3, t1, -, t3, t4, -, -, -⟩ :=
    handleOnGitHubPush_obs env (n + 1 + k) request w payload hv
  obtain ⟨e1, e2, e3, e4, e5, -⟩ := retryLoop_exit env payload p hu k n
    ((w.emit (.log "handleOnGitHubPush")).emit (.write (bytesOf "ok"))) hfail hsucc
  refine ⟨?_, ?_, h2.trans e2, ?_, ?_, ?_⟩
  · rw [← hstart]; exact e1
  · rw [h1, e1]
    simp
  · rw [h3, dialed_append, t4, e4]
    simp [dialed]
  · rw [h3, sleeps_append, t3, e3]
    simp [sleeps]
  · rw [h3, published_append, t1, e5 ⟨hname, hemail, hrepo⟩]
    simp [published]

/-- C3 on a broker that refuses the first two connections: three dials, two
waits, one publish call on the third connection, and the handler returns. -/
theorem handleOnGitHubPush_retries_until_declared_witness :
    (retryLoop (scenarioEnv "" (brokerUpAfter 2)) alicePayload 3
        { dials := 0, trace := [.log "handleOnGitHubPush", .write (bytesOf "ok")] }).1
      = some (.ret ())
    ∧ (handleOnGitHubPush (scenarioEnv "" (brokerUpAfter 2)) 3 (signed alicePayload) {}).1
      = some (.ret ())
    ∧ (handleOnGitHubPush (scenarioEnv "" (brokerUpAfter 2)) 3 (signed alicePayload) {}).2.dials
      = 3
    ∧ dialed (handleOnGitHubPush (scenarioEnv "" (brokerUpAfter 2)) 3
        (signed alicePayload) {}).2.trace = [0, 1, 2]
    ∧ sleeps (handleOnGitHubPush (scenarioEnv "" (brokerUpAfter 2)) 3
        (signed alicePayload) {}).2.trace = [2, 2]
    ∧ published (handleOnGitHubPush (scenarioEnv "" (brokerUpAfter 2)) 3
        (signed alicePayload) {}).2.trace =
        [{ ch := 2, timeout := 5, exchange := "github", key := "org/repo",
           mandatory := false, immediate := false,
           msg := { ContentType := "text/plain", Body := [112, 117, 115, 104] } }] :=
  handleOnGitHubPush_retries_until_declared (scenarioEnv "" (brokerUpAfter 2))
    (signed alicePayload) alicePayload alice 2 0 {} rfl rfl (by decide) (by decide)
    (by decide) (by decide) (by decide)

/-- C4: for every request whose validation fails, `handleOnGitHubPush`
returns normally after logging the failure and nothing else: no response
body is written, no connection is dialled, nothing is published and nothing
is sent on the shutdown channel, whatever the environment says about
`SHUTDOWN_ON_GITHUB_PUSH`. -/
theorem handleOnGitHubPush_rejects_invalid_signature (env : Env) (fuel : Nat)
    (request : Request) (w : World) (err : Error)
    (hv : env.validatePayload request (bytesOf (env.getenv "GITHUB_SECRET_TOKEN"))
      = .error err) :
    handleOnGitHubPush env fuel request w
      = (some (.ret ()),
          { dials := w.dials,
            trace := w.trace ++ [.log "handleOnGitHubPush",
              .log ("ValidatePayload failed: " ++ err)] })
    ∧ writes (handleOnGitHubPush env fuel request w).2.trace = writes w.trace
    ∧ dialed (handleOnGitHubPush env fuel request w).2.trace = dialed w.trace
    ∧ openConns (handleOnGitHubPush env fuel request w).2.trace = openConns w.trace
    ∧ published (handleOnGitHubPush env fuel request w).2.trace = published w.trace
    ∧ shutdownSends (handleOnGitHubPush env fuel request w).2.trace
        = shutdownSends w.trace := by
  rw [handleOnGitHubPush_of_invalid env fuel request w err hv]
  refine ⟨rfl, ?_, ?_, ?_, ?_, ?_⟩ <;>
    simp [writes, dialed, openConns, openConnsFrom, published, shutdownSends]

/-- C4 on a request without signature header, with the shutdown flag set:
the handler returns having done nothing but log. -/
theorem handleOnGitHubPush_rejects_invalid_signature_witness :
    writes (handleOnGitHubPush (scenarioEnv "1" brokerUp) 5 (unsigned alicePayload) {}).2.trace
      = []
    ∧ dialed (handleOnGitHubPush (scenarioEnv "1" brokerUp) 5
        (unsigned alicePayload) {}).2.trace = []
    ∧ openConns (handleOnGitHubPush (scenarioEnv "1" brokerUp) 5
        (unsigned alicePayload) {}).2.trace = []
    ∧ published (handleOnGitHubPush (scenarioEnv "1" brokerUp) 5
        (unsigned alicePayload) {}).2.trace = []
    ∧ shutdownSends (handleOnGitHubPush (scenarioEnv "1" brokerUp) 5
        (unsigned alicePayload) {}).2.trace = [] :=
  (handleOnGitHubPush_rejects_invalid_signature (scenarioEnv "1" brokerUp) 5
    (unsigned alicePayload) {} "missing signature" rfl).2

/-- C5 as stated fails: with the broker down, a payload that deserializes
to the zero value (no pusher, no repository) makes `publishToMqExchange`
return the dial error, and the handler waits and tries again, three times
within three iterations, without leaving its loop. -/
theorem not_a_push_is_retried_while_broker_down :
    (scenarioEnv "" brokerDown).unmarshal emptyObject = .ok {}
    ∧ ({} : GitHubPushPayload).Pusher.Name = ""
    ∧ (publishToMqExchange (scenarioEnv "" brokerDown) emptyObject {}).1
        = .ret (some "connection refused")
    ∧ (handleOnGitHubPush (scenarioEnv "" brokerDown) 3 (signed emptyObject) {}).1 = none
    ∧ sleeps (handleOnGitHubPush (scenarioEnv "" brokerDown) 3
        (signed emptyObject) {}).2.trace = [2, 2, 2] :=
  ⟨rfl, rfl, by decide, by decide, by decide⟩

/-- C5, amended: for every payload that deserializes with at least one of
`pusher.name`, `pusher.email`, `repository.full_name` empty, no call of
`publishToMqExchange` and no run of the handler publishes a message. On an
attempt on which `declareMqExchange` succeeds `publishToMqExchange` returns
`nil`. On an attempt on which `declareMqExchange` returns an error,
`publishToMqExchange` returns that very error and does nothing else, and the
loop logs it, waits 2 seconds and goes on to the next attempt. So after `n`
attempts on which `declareMqExchange` fails and one on which it succeeds the
loop is left, after `n` waits, and the handler returns when
`SHUTDOWN_ON_GITHUB_PUSH` is not `"1"`. -/
theorem not_a_push_is_dropped (env : Env) (payload : Bytes) (p : GitHubPushPayload)
    (hu : env.unmarshal payload = .ok p)
    (hempty : p.Pusher.Name = "" ∨ p.Pusher.Email = "" ∨ p.Repository.FullName = "") :
    (∀ w, published (publishToMqExchange env payload w).2.trace = published w.trace)
    ∧ (∀ w, declareSucceeds env w.dials = true →
        (publishToMqExchange env payload w).1 = .ret none)
    ∧ (∀ w err,
        (declareMqExchange env (env.getenv "RMQ_EXCHANGE_NAME") w).1 = .error err →
        publishToMqExchange env payload w
          = (.ret (some err), (declareMqExchange env (env.getenv "RMQ_EXCHANGE_NAME") w).2)
        ∧ ∀ fuel, retryLoop env payload (fuel + 1) w
            = retryLoop env payload fuel
                ((((declareMqExchange env (env.getenv "RMQ_EXCHANGE_NAME") w).2.emit
                    (.log ("publishToMqExchange error: " ++ err))).emit
                  (.log "Retry publishToMqExchange in 2 seconds...")).emit (.sleep 2)))
    ∧ (∀ fuel request w,
        env.validatePayload request (bytesOf (env.getenv "GITHUB_SECRET_TOKEN"))
          = .ok payload →
        published (handleOnGitHubPush env fuel request w).2.trace = published w.trace)
    ∧ (∀ n k request w,
        env.validatePayload request (bytesOf (env.getenv "GITHUB_SECRET_TOKEN"))
          = .ok payload →
        (∀ i, i < n → declareSucceeds env (w.dials + i) = false) →
        declareSucceeds env (w.dials + n) = true →
        (retryLoop env payload (n + 1 + k)
            { dials := w.dials,
              trace := w.trace ++ [.log "handleOnGitHubPush", .write (bytesOf "ok")] }).1
          = some (.ret ())
        ∧ sleeps (handleOnGitHubPush env (n + 1 + k) request w).2.trace
            = sleeps w.trace ++ List.replicate n 2
        ∧ (env.getenv "SHUTDOWN_ON_GITHUB_PUSH" ≠ "1" →
            (handleOnGitHubPush env (n + 1 + k) request w).1 = some (.ret ()))) := by
  have hnv : ¬ validPush p := by
    rintro ⟨h1, h2, h3⟩
    rcases hempty with h | h | h
    · exact h1 h
    · exact h2 h
    · exact h3 h
  have hall : ∀ q, env.unmarshal payload = .ok q → ¬ validPush q := by
    intro q hq
    rw [hu] at hq
    cases hq
    exact hnv
  have hpub := publishToMqExchange_published_unchanged env payload hall
  refine ⟨hpub, ?_, ?_, ?_, ?_⟩
  · intro w hs
    exact ((publishToMqExchange_of_declare_succeeds env payload w hs).2.1 p hu hnv).1
  · intro w err herr
    exact ⟨publishToMqExchange_of_declare_error env payload w err herr,
      fun fuel => retryLoop_of_declare_error env payload fuel w err herr⟩
  · intro fuel request w hv
    obtain ⟨-, -, tail, h3, t1, -⟩ := handleOnGitHubPush_obs env fuel request w payload hv
    rw [h3, published_append, t1, retryLoop_published_unchanged env payload hpub]
    simp [published]
  · intro n k request w hv hfail hsucc
    have hstart : (w.emit (.log "handleOnGitHubPush")).emit (.write (bytesOf "ok"))
        = { dials := w.dials,
            trace := w.trace ++ [.log "handleOnGitHubPush", .write (bytesOf "ok")] } := by
      simp [World.emit]
    obtain ⟨h1, -, tail, h3, -, -, t3, -⟩ :=
      handleOnGitHubPush_obs env (n + 1 + k) request w payload hv
    obtain ⟨e1, -, e3, -⟩ := retryLoop_exit env payload p hu k n
      ((w.emit (.log "handleOnGitHubPush")).emit (.write (bytesOf "ok"))) hfail hsucc
    refine ⟨?_, ?_, ?_⟩
    · rw [← hstart]; exact e1
    · rw [h3, sleeps_append, t3, e3]
      simp [sleeps]
    · intro hflag
      rw [h1, e1]
      simp [hflag]

/-- C5, amended, on the body `{}`: with the broker up nothing is published,
`publishToMqExchange` returns `nil` and the handler returns at once; with the
broker down `publishToMqExchange` returns the dial error; with the broker up
from the third connection on, the handler returns after two waits. -/
theorem not_a_push_is_dropped_witness :
    published (publishToMqExchange (scenarioEnv "" brokerUp) emptyObject {}).2.trace = []
    ∧ (publishToMqExchange (scenarioEnv "" brokerUp) emptyObject {}).1 = .ret none
    ∧ (publishToMqExchange (scenarioEnv "" brokerDown) emptyObject {}).1
        = .ret (some "connection refused")
    ∧ published (handleOnGitHubPush (scenarioEnv "" brokerUp) 1
        (signed emptyObject) {}).2.trace = []
    ∧ sleeps (handleOnGitHubPush (scenarioEnv "" (brokerUpAfter 2)) 3
        (signed emptyObject) {}).2.trace = [2, 2]
    ∧ (handleOnGitHubPush (scenarioEnv "" (brokerUpAfter 2)) 3 (signed emptyObject) {}).1
        = some (.ret ()) :=
  ⟨(not_a_push_is_dropped (scenarioEnv "" brokerUp) emptyObject {} rfl (Or.inl rfl)).1 {},
   (not_a_push_is_dropped (scenarioEnv "" brokerUp) emptyObject {} rfl (Or.inl rfl)).2.1 {}
     (by decide),
   congrArg Prod.fst
     ((not_a_push_is_dropped (scenarioEnv "" brokerDown) emptyObject {} rfl
       (Or.inl rfl)).2.2.1 {} "connection refused" rfl).1,
   (not_a_push_is_dropped (scenarioEnv "" brokerUp) emptyObject {} rfl (Or.inl rfl)).2.2.2.1
     1 (signed emptyObject) {} rfl,
   ((not_a_push_is_dropped (scenarioEnv "" (brokerUpAfter 2)) emptyObject {} rfl
     (Or.inl rfl)).2.2.2.2 2 0 (signed emptyObject) {} rfl (by decide) (by decide)).2.1,
   ((not_a_push_is_dropped (scenarioEnv "" (brokerUpAfter 2)) emptyObject {} rfl
     (Or.inl rfl)).2.2.2.2 2 0 (signed emptyObject) {} rfl (by decide) (by decide)).2.2
     (by decide)⟩

/-- C6 (the code departs from the claim): with the shutdown flag set and the
broker up, an authenticated body `{}`, which is not a valid push and for
which nothing is published, makes the handler send `bye` on the shutdown
channel. -/
theorem shutdown_without_push :
    (scenarioEnv "1" brokerUp).unmarshal emptyObject = .ok {}
    ∧ ¬ validPush {}
    ∧ (handleOnGitHubPush (scenarioEnv "1" brokerUp) 1 (signed emptyObject) {}).1
        = some (.ret ())
    ∧ published (handleOnGitHubPush (scenarioEnv "1" brokerUp) 1
        (signed emptyObject) {}).2.trace = []
    ∧ shutdownSends (handleOnGitHubPush (scenarioEnv "1" brokerUp) 1
        (signed emptyObject) {}).2.trace = ["bye"] :=
  ⟨rfl, by decide, by decide, by decide, by decide⟩

/-- C7 as stated fails: with the flag `"1"`, a second push that is relayed
after the first one has delivered `bye` to the single receive of `main`
publishes its message, but sends no message on the shutdown channel: its
send stays blocked and the handler does not return. -/
theorem second_shutdown_send_is_not_delivered :
    shutdownSends (handleOnGitHubPush (scenarioEnv "1" brokerUp) 1
        (signed alicePayload) {}).2.trace = ["bye"]
    ∧ (published (handleOnGitHubPush (scenarioEnv "1" brokerUp) 1 (signed alicePayload)
        (handleOnGitHubPush (scenarioEnv "1" brokerUp) 1
          (signed alicePayload) {}).2).2.trace).length = 2
    ∧ shutdownSends (handleOnGitHubPush (scenarioEnv "1" brokerUp) 1 (signed alicePayload)
        (handleOnGitHubPush (scenarioEnv "1" brokerUp) 1
          (signed alicePayload) {}).2).2.trace = ["bye"]
    ∧ parkedSends (handleOnGitHubPush (scenarioEnv "1" brokerUp) 1 (signed alicePayload)
        (handleOnGitHubPush (scenarioEnv "1" brokerUp) 1
          (signed alicePayload) {}).2).2.trace = ["bye"]
    ∧ (handleOnGitHubPush (scenarioEnv "1" brokerUp) 1 (signed alicePayload)
        (handleOnGitHubPush (scenarioEnv "1" brokerUp) 1
          (signed alicePayload) {}).2).1 = some .blocked := by
  decide

/-- C7, amended: whatever the request, the broker and the fuel, a handler
whose environment has `SHUTDOWN_ON_GITHUB_PUSH` different from `"1"` neither
delivers a message on the shutdown channel nor blocks on it. With the value
`"1"`, a handler that has issued a publish call in this request does one of
two things: while nothing has been delivered on the channel yet, it delivers
exactly one message, `"bye"`, and returns; once a message has been
delivered, it delivers nothing and stays blocked in its send of `"bye"`. On a
valid push, the handler does issue a publish call once `declareMqExchange`
has succeeded after `n` failed attempts. -/
theorem shutdown_only_when_flag_is_one (env : Env) (fuel : Nat) (request : Request)
    (w : World) :
    (env.getenv "SHUTDOWN_ON_GITHUB_PUSH" ≠ "1" →
      shutdownSends (handleOnGitHubPush env fuel request w).2.trace = shutdownSends w.trace
      ∧ parkedSends (handleOnGitHubPush env fuel request w).2.trace = parkedSends w.trace)
    ∧ (env.getenv "SHUTDOWN_ON_GITHUB_PUSH" = "1" →
        published (handleOnGitHubPush env fuel request w).2.trace ≠ published w.trace →
        shutdownSends w.trace = [] →
        (handleOnGitHubPush env fuel request w).1 = some (.ret ())
        ∧ shutdownSends (handleOnGitHubPush env fuel request w).2.trace = ["bye"]
        ∧ parkedSends (handleOnGitHubPush env fuel request w).2.trace = parkedSends w.trace)
    ∧ (env.getenv "SHUTDOWN_ON_GITHUB_PUSH" = "1" →
        published (handleOnGitHubPush env fuel request w).2.trace ≠ published w.trace →
        shutdownSends w.trace ≠ [] →
        (handleOnGitHubPush env fuel request w).1 = some .blocked
        ∧ shutdownSends (handleOnGitHubPush env fuel request w).2.trace
            = shutdownSends w.trace
        ∧ parkedSends (handleOnGitHubPush env fuel request w).2.trace
            = parkedSends w.trace ++ ["bye"])
    ∧ (∀ payload p n k,
        env.validatePayload request (bytesOf (env.getenv "GITHUB_SECRET_TOKEN"))
          = .ok payload →
        env.unmarshal payload = .ok p →
        p.Pusher.Name ≠ "" → p.Pusher.Email ≠ "" → p.Repository.FullName ≠ "" →
        (∀ i, i < n → declareSucceeds env (w.dials + i) = false) →
        declareSucceeds env (w.dials + n) = true →
        published (handleOnGitHubPush env (n + 1 + k) request w).2.trace
          ≠ published w.trace) := by
  have hstart : published
      ((w.emit (.log "handleOnGitHubPush")).emit (.write (bytesOf "ok"))).trace
      = published w.trace := by
    simp [published]
  have hstartS : shutdownSends
      ((w.emit (.log "handleOnGitHubPush")).emit (.write (bytesOf "ok"))).trace
      = shutdownSends w.trace := by
    simp [shutdownSends]
  have hstartP : parkedSends
      ((w.emit (.log "handleOnGitHubPush")).emit (.write (bytesOf "ok"))).trace
      = parkedSends w.trace := by
    simp [parkedSends]
  -- a publish call in the request means that validation succeeded and the loop was left
  have hleft : published (handleOnGitHubPush env fuel request w).2.trace ≠ published w.trace →
      ∃ payload,
        env.validatePayload request (bytesOf (env.getenv "GITHUB_SECRET_TOKEN")) = .ok payload
        ∧ (retryLoop env payload fuel
            ((w.emit (.log "handleOnGitHubPush")).emit (.write (bytesOf "ok")))).1
              = some (.ret ()) := by
    intro hpub
    rcases hv : env.validatePayload request (bytesOf (env.getenv "GITHUB_SECRET_TOKEN"))
      with err | payload
    · exfalso
      apply hpub
      rw [handleOnGitHubPush_of_invalid env fuel request w err hv]
      simp [published]
    · obtain ⟨-, -, tail, h3, t1, -⟩ := handleOnGitHubPush_obs env fuel request w payload hv
      obtain ⟨-, -, -, -, -, r6⟩ := retryLoop_obs env payload fuel
        ((w.emit (.log "handleOnGitHubPush")).emit (.write (bytesOf "ok")))
      rcases r6 with h | ⟨hret, -⟩
      · exfalso
        apply hpub
        rw [h3, published_append, t1, h, hstart]
        simp
      · exact ⟨payload, rfl, hret⟩
  refine ⟨?_, ?_, ?_, ?_⟩
  · intro hflag
    rcases hv : env.validatePayload request (bytesOf (env.getenv "GITHUB_SECRET_TOKEN"))
      with err | payload
    · rw [handleOnGitHubPush_of_invalid env fuel request w err hv]
      simp [shutdownSends, parkedSends]
    · obtain ⟨-, -, tail, h3, -, -, -, -, -, -, t7, t8⟩ :=
        handleOnGitHubPush_obs env fuel request w payload hv
      obtain ⟨-, -, r3, -⟩ := retryLoop_obs env payload fuel
        ((w.emit (.log "handleOnGitHubPush")).emit (.write (bytesOf "ok")))
      have rp := retryLoop_parked env payload fuel
        ((w.emit (.log "handleOnGitHubPush")).emit (.write (bytesOf "ok")))
      rw [h3, shutdownSends_append, parkedSends_append, t7, t8, r3, rp, hstartS, hstartP]
      simp [hflag]
  · intro hflag hpub hrecv
    obtain ⟨payload, hv, hret⟩ := hleft hpub
    obtain ⟨h1, -, tail, h3, -, -, -, -, -, -, t7, t8⟩ :=
      handleOnGitHubPush_obs env fuel request w payload hv
    obtain ⟨-, -, r3, -⟩ := retryLoop_obs env payload fuel
      ((w.emit (.log "handleOnGitHubPush")).emit (.write (bytesOf "ok")))
    have rp := retryLoop_parked env payload fuel
      ((w.emit (.log "handleOnGitHubPush")).emit (.write (bytesOf "ok")))
    refine ⟨?_, ?_, ?_⟩
    · rw [h1, hret]; simp [hrecv]
    · rw [h3, shutdownSends_append, t7, r3, hstartS]
      simp [hflag, hret, hrecv]
    · rw [h3, parkedSends_append, t8, rp, hstartP]
      simp [hrecv]
  · intro hflag hpub hrecv
    obtain ⟨payload, hv, hret⟩ := hleft hpub
    obtain ⟨h1, -, tail, h3, -, -, -, -, -, -, t7, t8⟩ :=
      handleOnGitHubPush_obs env fuel request w payload hv
    obtain ⟨-, -, r3, -⟩ := retryLoop_obs env payload fuel
      ((w.emit (.log "handleOnGitHubPush")).emit (.write (bytesOf "ok")))
    have rp := retryLoop_parked env payload fuel
      ((w.emit (.log "handleOnGitHubPush")).emit (.write (bytesOf "ok")))
    refine ⟨?_, ?_, ?_⟩
    · rw [h1, hret]; simp [hflag, hrecv]
    · rw [h3, shutdownSends_append, t7, r3, hstartS]
      simp [hrecv]
    · rw [h3, parkedSends_append, t8, rp, hstartP]
      simp [hflag, hret, hrecv]
  · intro payload p n k hv hu hname hemail hrepo hfail hsucc
    obtain ⟨-, -, tail, h3, t1, -⟩ :=
      handleOnGitHubPush_obs env (n + 1 + k) request w payload hv
    obtain ⟨-, -, -, -, e5, -⟩ := retryLoop_exit env payload p hu k n
      ((w.emit (.log "handleOnGitHubPush")).emit (.write (bytesOf "ok"))) hfail hsucc
    rw [h3, published_append, t1, e5 ⟨hname, hemail, hrepo⟩, hstart]
    simp

/-- C7, amended, on the scenario push: with the flag `"0"` nothing is
delivered; with the flag `"1"` the first request delivers exactly `bye` and
returns, and a second one, run after it, delivers nothing more and stays
blocked; with a broker that is up from the third connection on, the request
does publish. -/
theorem shutdown_only_when_flag_is_one_witness :
    (shutdownSends (handleOnGitHubPush (scenarioEnv "0" brokerUp) 1
        (signed alicePayload) {}).2.trace = []
      ∧ parkedSends (handleOnGitHubPush (scenarioEnv "0" brokerUp) 1
        (signed alicePayload) {}).2.trace = [])
    ∧ ((handleOnGitHubPush (scenarioEnv "1" brokerUp) 1 (signed alicePayload) {}).1
          = some (.ret ())
        ∧ shutdownSends (handleOnGitHubPush (scenarioEnv "1" brokerUp) 1
            (signed alicePayload) {}).2.trace = ["bye"]
        ∧ parkedSends (handleOnGitHubPush (scenarioEnv "1" brokerUp) 1
            (signed alicePayload) {}).2.trace = [])
    ∧ ((handleOnGitHubPush (scenarioEnv "1" brokerUp) 1 (signed alicePayload)
          { dials := 1, trace := [.shutdownSend "bye"] }).1 = some .blocked
        ∧ shutdownSends (handleOnGitHubPush (scenarioEnv "1" brokerUp) 1 (signed alicePayload)
            { dials := 1, trace := [.shutdownSend "bye"] }).2.trace = ["bye"]
        ∧ parkedSends (handleOnGitHubPush (scenarioEnv "1" brokerUp) 1 (signed alicePayload)
            { dials := 1, trace := [.shutdownSend "bye"] }).2.trace = ["bye"])
    ∧ published (handleOnGitHubPush (scenarioEnv "1" (brokerUpAfter 2)) 3
        (signed alicePayload) {}).2.trace ≠ [] :=
  ⟨(shutdown_only_when_flag_is_one (scenarioEnv "0" brokerUp) 1 (signed alicePayload) {}).1
     (by decide),
   (shutdown_only_when_flag_is_one (scenarioEnv "1" brokerUp) 1 (signed alicePayload) {}).2.1
     (by decide) (by decide) (by decide),
   (shutdown_only_when_flag_is_one (scenarioEnv "1" brokerUp) 1 (signed alicePayload)
     { dials := 1, trace := [.shutdownSend "bye"] }).2.2.1
     (by decide) (by decide) (by decide),
   (shutdown_only_when_flag_is_one (scenarioEnv "1" (brokerUpAfter 2)) 3
     (signed alicePayload) {}).2.2.2 alicePayload alice 2 0 rfl rfl
     (by decide) (by decide) (by decide) (by decide) (by decide)⟩

/-- C8 as stated fails: with the broker down, a call of
`publishToMqExchange` on a body that does not deserialize returns the dial
error, an ordinary error result, and does not panic. -/
theorem malformed_payload_returns_error_while_broker_down :
    (scenarioEnv "" brokerDown).unmarshal wrongTypeBody = .error "json: cannot unmarshal"
    ∧ (publishToMqExchange (scenarioEnv "" brokerDown) wrongTypeBody {}).1
        = .ret (some "connection refused") :=
  ⟨rfl, by decide⟩

/-- C8, amended: for every payload that fails to deserialize, no call of
`publishToMqExchange` publishes a message. On an attempt on which
`declareMqExchange` succeeds the call panics with the deserialization error,
returning neither an error nor `nil`. On an attempt on which
`declareMqExchange` returns an error, the call returns that very error and
does nothing else: it does not reach the deserialization, so it does not
panic; and the loop logs the error, waits 2 seconds and goes on to the next
attempt. -/
theorem malformed_payload_panics (env : Env) (payload : Bytes) (err : Error)
    (hu : env.unmarshal payload = .error err) :
    (∀ w, published (publishToMqExchange env payload w).2.trace = published w.trace)
    ∧ (∀ w, declareSucceeds env w.dials = true →
        (publishToMqExchange env payload w).1 = .panic err)
    ∧ (∀ w e,
        (declareMqExchange env (env.getenv "RMQ_EXCHANGE_NAME") w).1 = .error e →
        publishToMqExchange env payload w
          = (.ret (some e), (declareMqExchange env (env.getenv "RMQ_EXCHANGE_NAME") w).2)
        ∧ ∀ fuel, retryLoop env payload (fuel + 1) w
            = retryLoop env payload fuel
                ((((declareMqExchange env (env.getenv "RMQ_EXCHANGE_NAME") w).2.emit
                    (.log ("publishToMqExchange error: " ++ e))).emit
                  (.log "Retry publishToMqExchange in 2 seconds...")).emit (.sleep 2))) := by
  have hall : ∀ q, env.unmarshal payload = .ok q → ¬ validPush q := by
    intro q hq
    rw [hu] at hq
    cases hq
  refine ⟨publishToMqExchange_published_unchanged env payload hall, ?_, ?_⟩
  · intro w hs
    exact ((publishToMqExchange_of_declare_succeeds env payload w hs).1 err hu).1
  · intro w e he
    exact ⟨publishToMqExchange_of_declare_error env payload w e he,
      fun fuel => retryLoop_of_declare_error env payload fuel w e he⟩

/-- C8, amended, on the body `{"pusher":42}`: with the broker up the call
panics and publishes nothing; with the broker down it returns the dial
error. -/
theorem malformed_payload_panics_witness :
    published (publishToMqExchange (scenarioEnv "" brokerUp) wrongTypeBody {}).2.trace = []
    ∧ (publishToMqExchange (scenarioEnv "" brokerUp) wrongTypeBody {}).1
        = .panic "json: cannot unmarshal"
    ∧ (publishToMqExchange (scenarioEnv "" brokerDown) wrongTypeBody {}).1
        = .ret (some "connection refused") :=
  ⟨(malformed_payload_panics (scenarioEnv "" brokerUp) wrongTypeBody
      "json: cannot unmarshal" rfl).1 {},
   (malformed_payload_panics (scenarioEnv "" brokerUp) wrongTypeBody
      "json: cannot unmarshal" rfl).2.1 {} (by decide),
   congrArg Prod.fst
     ((malformed_payload_panics (scenarioEnv "" brokerDown) wrongTypeBody
       "json: cannot unmarshal" rfl).2.2 {} "connection refused" rfl).1⟩

/-- C9: for every request whose validation succeeds, whatever the broker,
the payload and the fuel (so also when the loop never ends, when the event is
dropped and when the call panics), the handler writes the body `ok` exactly
once, and the retry loop starts from the world in which it has been written:
the trace of the request is the entry log line, the write of `ok`, what the
loop adds and what follows the loop, and neither of the last two contains a
write. -/
theorem ok_written_before_relay (env : Env) (fuel : Nat) (request : Request) (w : World)
    (payload : Bytes)
    (hv : env.validatePayload request (bytesOf (env.getenv "GITHUB_SECRET_TOKEN"))
      = .ok payload) :
    writes (handleOnGitHubPush env fuel request w).2.trace = writes w.trace ++ [bytesOf "ok"]
    ∧ ∃ during after,
        (retryLoop env payload fuel
            { dials := w.dials,
              trace := w.trace ++ [.log "handleOnGitHubPush", .write (bytesOf "ok")] }).2.trace
          = w.trace ++ [.log "handleOnGitHubPush", .write (bytesOf "ok")] ++ during
        ∧ (handleOnGitHubPush env fuel request w).2.trace
          = w.trace ++ [.log "handleOnGitHubPush", .write (bytesOf "ok")] ++ during ++ after
        ∧ writes during = [] ∧ writes after = [] := by
  have hstart : (w.emit (.log "handleOnGitHubPush")).emit (.write (bytesOf "ok"))
      = { dials := w.dials,
          trace := w.trace ++ [.log "handleOnGitHubPush", .write (bytesOf "ok")] } := by
    simp [World.emit]
  obtain ⟨-, -, tail, h3, -, t2, -⟩ := handleOnGitHubPush_obs env fuel request w payload hv
  obtain ⟨-, r2, -⟩ := retryLoop_obs env payload fuel
    ((w.emit (.log "handleOnGitHubPush")).emit (.write (bytesOf "ok")))
  obtain ⟨d, hd⟩ := retryLoop_extends env payload fuel
    ((w.emit (.log "handleOnGitHubPush")).emit (.write (bytesOf "ok")))
  rw [hstart] at h3 r2 hd
  simp only at hd
  have hwd : writes d = [] := by
    rw [hd, writes_append] at r2
    exact List.append_right_eq_self.1 r2
  refine ⟨?_, d, tail, hd, ?_, hwd, t2⟩
  · rw [h3, hd]
    simp only [writes_append, hwd, t2]
    simp [writes]
  · rw [h3, hd]

/-- C9 on the scenario push with the broker down and three iterations of
fuel: the loop is still running, and `ok` has been written once. -/
theorem ok_written_before_relay_witness :
    (handleOnGitHubPush (scenarioEnv "" brokerDown) 3 (signed alicePayload) {}).1 = none
    ∧ writes (handleOnGitHubPush (scenarioEnv "" brokerDown) 3
        (signed alicePayload) {}).2.trace = [[111, 107]] :=
  ⟨by decide,
   (ok_written_before_relay (scenarioEnv "" brokerDown) 3 (signed alicePayload) {}
     alicePayload rfl).1⟩

/-- C10: no call of `declareMqExchange`, `publishToMqExchange` or
`handleOnGitHubPush` closes a connection or a channel. A call of
`declareMqExchange` whose dial succeeds adds its connection to the open ones,
whatever the later steps answer, and so does a call of `publishToMqExchange`,
whatever the payload; after a request the open connections are those open
before it followed by every connection of the request whose dial succeeded,
so their number never decreases. -/
theorem connections_are_never_closed (env : Env) :
    (∀ x w,
      closes (declareMqExchange env x w).2.trace = closes w.trace
      ∧ openConns (declareMqExchange env x w).2.trace
          = openConns w.trace ++ (if dialSucceeds env w.dials then [w.dials] else []))
    ∧ (∀ payload w,
      closes (publishToMqExchange env payload w).2.trace = closes w.trace
      ∧ openConns (publishToMqExchange env payload w).2.trace
          = openConns w.trace ++ (if dialSucceeds env w.dials then [w.dials] else []))
    ∧ (∀ fuel request w,
      closes (handleOnGitHubPush env fuel request w).2.trace = closes w.trace
      ∧ w.dials ≤ (handleOnGitHubPush env fuel request w).2.dials
      ∧ openConns (handleOnGitHubPush env fuel request w).2.trace
          = openConns w.trace
            ++ (List.range' w.dials
                  ((handleOnGitHubPush env fuel request w).2.dials - w.dials)).filter
                (dialSucceeds env)
      ∧ (openConns w.trace).length
          ≤ (openConns (handleOnGitHubPush env fuel request w).2.trace).length) := by
  have hif : ∀ n, (if (env.broker n).dial = none then [n] else [])
      = (if dialSucceeds env n then [n] else []) := by
    intro n
    by_cases h : (env.broker n).dial = none <;> simp [dialSucceeds, h]
  refine ⟨?_, ?_, ?_⟩
  · intro x w
    obtain ⟨-, -, -, -, -, o6, -, o8⟩ := declareMqExchange_obs env x w
    exact ⟨o6, by rw [openConns, o8, hif]; rfl⟩
  · intro payload w
    obtain ⟨-, -, -, -, o5, -, o7, -⟩ := publishToMqExchange_obs env payload w
    exact ⟨o5, by rw [openConns, o7, hif]; rfl⟩
  · intro fuel request w
    have key : closes (handleOnGitHubPush env fuel request w).2.trace = closes w.trace
        ∧ w.dials ≤ (handleOnGitHubPush env fuel request w).2.dials
        ∧ openConns (handleOnGitHubPush env fuel request w).2.trace
            = openConns w.trace
              ++ (List.range' w.dials
                    ((handleOnGitHubPush env fuel request w).2.dials - w.dials)).filter
                  (dialSucceeds env) := by
      rcases hv : env.validatePayload request (bytesOf (env.getenv "GITHUB_SECRET_TOKEN"))
        with err | payload
      · rw [handleOnGitHubPush_of_invalid env fuel request w err hv]
        simp [closes, openConns, openConnsFrom]
      · obtain ⟨-, h2, tail, h3, -, -, -, -, t5, t6, -⟩ :=
          handleOnGitHubPush_obs env fuel request w payload hv
        obtain ⟨r1, -, -, r4, r5, -⟩ := retryLoop_obs env payload fuel
          ((w.emit (.log "handleOnGitHubPush")).emit (.write (bytesOf "ok")))
        rw [h2, h3]
        refine ⟨?_, r1, ?_⟩
        · rw [closes_append, t5, r4]
          simp [closes]
        · rw [openConns, openConnsFrom_append, t6, r5]
          simp [openConns, openConnsFrom]
    refine ⟨key.1, key.2.1, key.2.2, ?_⟩
    rw [key.2.2]
    simp

end WebhookCenter
